import Mathlib

/-!
Verification of the physics/collision/animation core of the `hubba`
terminal physics simulation (Go sources: `physics.go`, `animation.go`,
and the entity/registry file).

Modelling conventions:
* `float64` arithmetic is embedded as exact rational arithmetic (`ℚ`).
  Every Go float value is a rational number; the only non-rational
  operation the core performs is `math.Sqrt`, which is used exclusively
  inside comparisons (`math.Sqrt s < t`) or in products where it cancels
  (`impulse * nx = c * (dv·d) * dx / dist²`).  Comparisons against a
  square root are embedded by the decidable predicate `sqrtLtB`, proved
  below (`sqrtLtB_iff_sqrt_lt`) to agree with the real-number statement
  `Real.sqrt s < t` whenever `0 ≤ s`.
* NaN/infinity handling is verified separately with an explicit float
  model (`Fl`) for the claims about sanitization; on the `ℚ` embedding
  the NaN/Inf guards of `BaseEntity.SetVelocity` never fire, so the
  setter is plain assignment there.
-/

/-- Decidable embedding of the Go comparison `math.Sqrt s < t` for a
nonnegative radicand `s`: it holds iff `t` is positive and `s < t*t`. -/
def sqrtLtB (s t : ℚ) : Bool :=
  decide (0 < t) && decide (s < t * t)

/-- Correctness of `sqrtLtB`: it decides `Real.sqrt s < t` (recall
`Real.sqrt` of a negative number is 0, matching the `0 < t` conjunct). -/
lemma sqrtLtB_iff_sqrt_lt (s t : ℚ) :
    sqrtLtB s t = true ↔ Real.sqrt (s : ℝ) < (t : ℝ) := by
  unfold sqrtLtB
  rcases le_or_lt t 0 with ht | ht
  · constructor
    · intro h
      simp only [Bool.and_eq_true, decide_eq_true_eq] at h
      exact absurd h.1 (not_lt.mpr ht)
    · intro h
      exact absurd (Real.sqrt_nonneg _ |>.trans_lt h)
        (not_lt.mpr (by exact_mod_cast ht))
  · have ht' : (0 : ℝ) < (t : ℝ) := by exact_mod_cast ht
    rw [Real.sqrt_lt' ht']
    simp only [Bool.and_eq_true, decide_eq_true_eq]
    constructor
    · intro h
      have := h.2
      have : ((s : ℝ)) < (t : ℝ) * (t : ℝ) := by exact_mod_cast this
      nlinarith [this]
    · intro h
      refine ⟨ht, ?_⟩
      have : ((s : ℝ)) < (t : ℝ) ^ 2 := h
      have : ((s : ℝ)) < (t : ℝ) * (t : ℝ) := by nlinarith [this]
      exact_mod_cast this

/-- Unfolding lemma for `sqrtLtB = true`, for evaluating concrete cases. -/
lemma sqrtLtB_true_iff (s t : ℚ) : sqrtLtB s t = true ↔ 0 < t ∧ s < t * t := by
  simp [sqrtLtB]

/-- Unfolding lemma for `sqrtLtB = false`, for evaluating concrete cases. -/
lemma sqrtLtB_false_iff (s t : ℚ) : sqrtLtB s t = false ↔ ¬(0 < t ∧ s < t * t) := by
  rw [← sqrtLtB_true_iff]
  cases sqrtLtB s t <;> simp

/-- The physics-engine state (`PhysicsEngine` struct, physics.go lines 9-30). -/
structure PhysicsEngine where
  Gravity : ℚ
  AirResistance : ℚ
  Restitution : ℚ
  StaticFriction : ℚ
  ContactDamping : ℚ
  MinX : ℚ
  MinY : ℚ
  MaxX : ℚ
  MaxY : ℚ
  DeltaTime : ℚ
  MaxVelocity : ℚ
  MinVelocity : ℚ
  ContactTolerance : ℚ
deriving DecidableEq

/-- `NewPhysicsEngine` (physics.go lines 33-57): sanitizes non-positive
dimensions to 10.0 and fills in the default constants. -/
def NewPhysicsEngine (boundsWidth boundsHeight : ℚ) : PhysicsEngine :=
  let w := if boundsWidth ≤ 0 then (10 : ℚ) else boundsWidth
  let h := if boundsHeight ≤ 0 then (10 : ℚ) else boundsHeight
  { Gravity := 25
    AirResistance := 0.05
    Restitution := 0.7
    StaticFriction := 0.8
    ContactDamping := 0.9
    MinX := 1
    MinY := 1
    MaxX := w - 2
    MaxY := h - 2
    DeltaTime := 0.1
    MaxVelocity := 50
    MinVelocity := 0.05
    ContactTolerance := 0.1 }

/-- `UpdateBounds` (physics.go lines 60-63): no validation, always stores
`width - 2` / `height - 2`. -/
def UpdateBounds (pe : PhysicsEngine) (width height : ℚ) : PhysicsEngine :=
  { pe with MaxX := width - 2, MaxY := height - 2 }

/-- Shape tag deciding which `GetBounds` implementation an entity uses:
`BaseEntity.GetBounds` (also used by `Sprite`), or the `Sphere` override
carrying its `Radius` field. -/
inductive EntShape where
  | box : EntShape
  | circle : ℚ → EntShape
deriving DecidableEq

/-- The physics-relevant fields of an entity (`BaseEntity` plus the
`Sphere.Radius` override carried in `shape`).  Display-only fields
(color, symbol, ID) and the animation state are omitted here; the
animation state is modelled separately by `EAS`. -/
structure Ent where
  x : ℚ
  y : ℚ
  vx : ℚ
  vy : ℚ
  size : ℤ
  mass : ℚ
  shape : EntShape
deriving DecidableEq

/-- The size → effective-extent table of `BaseEntity.GetBounds`
(entity file, lines 148-160): 1→0.8, 2→1.0, 3→1.3, 4→1.6,
default `size * 0.8`. -/
def effectiveSize (size : ℤ) : ℚ :=
  if size = 1 then 0.8
  else if size = 2 then 1.0
  else if size = 3 then 1.3
  else if size = 4 then 1.6
  else (size : ℚ) * 0.8

/-- `GetBounds` dispatch: `Sphere.GetBounds` returns the exact circle
(`x-R, y-R, 2R, 2R`); `BaseEntity.GetBounds` uses the effective-extent
table.  Result is `(x, y, width, height)`. -/
def GetBounds (e : Ent) : ℚ × ℚ × ℚ × ℚ :=
  match e.shape with
  | EntShape.circle r => (e.x - r, e.y - r, r * 2, r * 2)
  | EntShape.box =>
      let es := effectiveSize e.size
      (e.x - es / 2, e.y - es / 2, es, es)

/-- `BaseEntity.CheckCollision` (entity file, lines 165-170): AABB test
with strict `<`, so boxes that merely touch count as colliding. -/
def CheckCollision (e other : Ent) : Bool :=
  let (x1, y1, w1, h1) := GetBounds e
  let (x2, y2, w2, h2) := GetBounds other
  !(decide (x1 + w1 < x2) || decide (x2 + w2 < x1) ||
    decide (y1 + h1 < y2) || decide (y2 + h2 < y1))

/-- `BaseEntity.ApplyForce` (entity file, lines 125-131): `a = F/m`,
a no-op unless `Mass > 0`. -/
def ApplyForce (e : Ent) (fx fy : ℚ) : Ent :=
  if 0 < e.mass then
    { e with vx := e.vx + fx / e.mass, vy := e.vy + fy / e.mass }
  else e

/-- `applyGravity` (physics.go lines 77-80). -/
def applyGravity (pe : PhysicsEngine) (e : Ent) : Ent :=
  ApplyForce e 0 (pe.Gravity * pe.DeltaTime)

/-- `applyAirResistance` (physics.go lines 83-91): force `-k·v`, NOT
scaled by the timestep. -/
def applyAirResistance (pe : PhysicsEngine) (e : Ent) : Ent :=
  ApplyForce e (-pe.AirResistance * e.vx) (-pe.AirResistance * e.vy)

/-- `updatePosition` / `BaseEntity.Update` (physics.go 94-96, entity file
133-142): `position += velocity * dt`.  (`Update` additionally mirrors the
new position into the animation target; the animation state is modelled
separately.) -/
def updatePosition (pe : PhysicsEngine) (e : Ent) : Ent :=
  { e with x := e.x + e.vx * pe.DeltaTime, y := e.y + e.vy * pe.DeltaTime }

/-- `handleBoundaryCollisions` (physics.go lines 99-137).  Note that the
box is computed from the RAW `GetSize()` value, not from `GetBounds`;
that the local `x` is refreshed after an X-wall correction (so the Y-wall
branch positions with the corrected `x`); and that the local `vx`, `vy`
are NOT refreshed, so a Y-wall correction writes the original `vx`. -/
def handleBoundaryCollisions (pe : PhysicsEngine) (e : Ent) : Ent :=
  let x := e.x
  let y := e.y
  let vx := e.vx
  let vy := e.vy
  let size : ℚ := (e.size : ℚ)
  -- Horizontal boundary collisions.  The Go code refreshes its local `x`
  -- with the corrected value, which equals the stored `e1.x`, so the
  -- Y phase below positions with `e1`'s (corrected) x coordinate.
  let e1 : Ent :=
    if x - size / 2 ≤ pe.MinX then
      { e with x := pe.MinX + size / 2, vx := -vx * pe.Restitution }
    else if x + size / 2 ≥ pe.MaxX then
      { e with x := pe.MaxX - size / 2, vx := -vx * pe.Restitution }
    else e
  -- Vertical boundary collisions (the locals vx/vy are NOT refreshed,
  -- so SetVelocity here writes the entry-time vx)
  if y - size / 2 ≤ pe.MinY then
    { e1 with y := pe.MinY + size / 2, vx := vx, vy := -vy * pe.Restitution }
  else if y + size / 2 ≥ pe.MaxY then
    { e1 with y := pe.MaxY - size / 2, vx := vx, vy := -vy * pe.Restitution }
  else e1

/-- `capVelocity` (physics.go lines 140-169): sign-preserving cap at
`MaxVelocity`, static friction below `3·MinVelocity` total speed, and
zeroing of components below `MinVelocity`.  (`SetVelocity`'s NaN/Inf
guard never fires on rational values.) -/
def capVelocity (pe : PhysicsEngine) (e : Ent) : Ent :=
  let vx := e.vx
  let vy := e.vy
  let vx := if pe.MaxVelocity < |vx| then (if vx < 0 then -pe.MaxVelocity else pe.MaxVelocity) else vx
  let vy := if pe.MaxVelocity < |vy| then (if vy < 0 then -pe.MaxVelocity else pe.MaxVelocity) else vy
  -- totalSpeed = sqrt(vx²+vy²) < MinVelocity*3
  let p : ℚ × ℚ :=
    if sqrtLtB (vx * vx + vy * vy) (pe.MinVelocity * 3) then
      (vx * pe.StaticFriction, vy * pe.StaticFriction)
    else (vx, vy)
  let vx := if |p.1| < pe.MinVelocity then 0 else p.1
  let vy := if |p.2| < pe.MinVelocity then 0 else p.2
  { e with vx := vx, vy := vy }

/-- `ApplyPhysics` for a single entity (physics.go lines 66-74): the
five per-entity phases in order. -/
def applyPhysicsOne (pe : PhysicsEngine) (e : Ent) : Ent :=
  capVelocity pe (handleBoundaryCollisions pe (updatePosition pe
    (applyAirResistance pe (applyGravity pe e))))

/-- `ApplyPhysics` over an entity list; entities are processed
independently. -/
def ApplyPhysics (pe : PhysicsEngine) (entities : List Ent) : List Ent :=
  entities.map (applyPhysicsOne pe)

/-- `checkEntityCollision` (physics.go lines 201-222): radii come from
`GetBounds` width/2; collision iff center distance `<`
`(r1+r2) - ContactTolerance` (embedded with `sqrtLtB`). -/
def checkEntityCollision (pe : PhysicsEngine) (e1 e2 : Ent) : Bool :=
  let w1 := (GetBounds e1).2.2.1
  let w2 := (GetBounds e2).2.2.1
  let radius1 := w1 / 2
  let radius2 := w2 / 2
  let dx := e2.x - e1.x
  let dy := e2.y - e1.y
  let minDistance := (radius1 + radius2) - pe.ContactTolerance
  sqrtLtB (dx * dx + dy * dy) minDistance

/-- `NewSphere`'s physics fields (entity file, lines 240-281): size
sanitized to ≥ 1 when negative... (negative sizes map to 1; size 0 is
accepted), mass = effective size, radius = effective size / 2, shape
overridden to the circle. -/
def NewSphere (x y : ℚ) (size : ℤ) : Ent :=
  let size := if size < 0 then 1 else size
  let es := effectiveSize size
  { x := x, y := y, vx := 0, vy := 0, size := size, mass := es,
    shape := EntShape.circle (es / 2) }

/-- Velocity effect of `resolveCollision` (physics.go lines 225-306),
returning the final `(v1, v2)` velocity pairs.  The random values drawn
when the centers coincide exactly (lines 236-241) are passed in as
`rnd1 rnd2` (Go `rand.Float64()` results).  The separation step
(lines 259-267) only writes positions via `SetImmediatePosition` and is
computed entirely from values read at entry, so the final velocities do
not depend on it; the square root cancels from every velocity that is
actually stored:
`impulse*nx = (restitution*0.95*dvn)*dx/dist = restitution*0.95*(dv·d)*dx/dist²`,
and the branch tests `dvn > 0`, `relativeSpeed < c` become `dv·d > 0`
and `sqrtLtB (dv·dv) c`.  The transient contact-damping write
(lines 283-285) is overwritten by the final `SetVelocity` calls, which
use the velocities read at entry (lines 304-305). -/
def resolveCollisionVel (pe : PhysicsEngine) (e1 e2 : Ent) (rnd1 rnd2 : ℚ) :
    (ℚ × ℚ) × (ℚ × ℚ) :=
  let vx1 := e1.vx
  let vy1 := e1.vy
  let vx2 := e2.vx
  let vy2 := e2.vy
  let dx0 := e2.x - e1.x
  let dy0 := e2.y - e1.y
  let d : ℚ × ℚ :=
    if dx0 * dx0 + dy0 * dy0 = 0 then
      (0.1 * (rnd1 - 0.5), 0.1 * (rnd2 - 0.5))
    else (dx0, dy0)
  let dx := d.1
  let dy := d.2
  let dist2 := dx * dx + dy * dy
  let dvx := vx2 - vx1
  let dvy := vy2 - vy1
  -- dvn = (dv·d)/distance; with distance > 0 its sign is the sign of dv·d
  let dvnNum := dvx * dx + dvy * dy
  if 0 < dvnNum then ((vx1, vy1), (vx2, vy2))
  else if sqrtLtB (dvx * dvx + dvy * dvy) pe.MinVelocity then ((0, 0), (0, 0))
  else
    -- impulse = (2*dvn/2) * Restitution * 0.95; applied along (nx, ny)
    let c := pe.Restitution * 0.95 * dvnNum / dist2
    ((vx1 + c * dx, vy1 + c * dy), (vx2 - c * dx, vy2 - c * dy))

/-! ### Float model for the NaN/infinity sanitization claims

`Fl` represents a `float64` as finite (an exact rational), infinite
(with a sign), or NaN.  `flLe` mirrors IEEE-754 comparison: any
comparison involving NaN is false. -/

/-- A `float64` value: finite, signed infinity (`true` = +Inf), or NaN. -/
inductive Fl where
  | fin : ℚ → Fl
  | inf : Bool → Fl
  | nan : Fl
deriving DecidableEq

/-- `math.IsNaN`. -/
def Fl.isNaN : Fl → Bool
  | Fl.nan => true
  | _ => false

/-- `math.IsInf(v, 0)`. -/
def Fl.isInf : Fl → Bool
  | Fl.inf _ => true
  | _ => false

/-- A value is finite iff it is neither NaN nor infinite. -/
def Fl.isFinite : Fl → Bool
  | Fl.fin _ => true
  | _ => false

/-- IEEE-754 `<=` on the float model: false whenever either side is NaN. -/
def flLe : Fl → Fl → Bool
  | Fl.fin a, Fl.fin b => decide (a ≤ b)
  | Fl.fin _, Fl.inf s => s
  | Fl.inf s, Fl.fin _ => !s
  | Fl.inf s, Fl.inf t => !s || t
  | _, _ => false

/-- IEEE-754 subtraction as needed by `UpdateBounds` (`width - 2.0`):
NaN propagates; infinity minus a finite value keeps its sign. -/
def flSubFin : Fl → ℚ → Fl
  | Fl.fin a, b => Fl.fin (a - b)
  | Fl.inf s, _ => Fl.inf s
  | Fl.nan, _ => Fl.nan

/-- `BaseEntity.SetVelocity` (entity file, lines 91-100): each non-finite
component is reset to 0 before being stored. -/
def SetVelocityF (vx vy : Fl) : Fl × Fl :=
  let vx := if vx.isInf || vx.isNaN then Fl.fin 0 else vx
  let vy := if vy.isInf || vy.isNaN then Fl.fin 0 else vy
  (vx, vy)

/-- `BaseEntity.SetPosition` (entity file, lines 75-77): plain assignment,
NO validation — NaN/Inf coordinates are stored as given.
(`SetImmediatePosition`, lines 79-85, stores the same unvalidated pair.) -/
def SetPositionF (x y : Fl) : Fl × Fl :=
  (x, y)

/-- `SetGravity` (physics.go lines 319-325): silently rejects Inf/NaN,
keeping the previous value. -/
def SetGravityF (old gravity : Fl) : Fl :=
  if gravity.isInf || gravity.isNaN then old else gravity

/-- `SetRestitution` (physics.go lines 333-337): stores only values with
`restitution >= 0 && restitution <= 1`; under IEEE comparison NaN and the
infinities fail this test, so they are rejected. -/
def SetRestitutionF (old restitution : Fl) : Fl :=
  if flLe (Fl.fin 0) restitution && flLe restitution (Fl.fin 1) then restitution
  else old

/-- `UpdateBounds` on the float model (physics.go lines 60-63): stores
`width - 2.0` / `height - 2.0` with no validation of any kind. -/
def UpdateBoundsF (width height : Fl) : Fl × Fl :=
  (flSubFin width 2, flSubFin height 2)

/-! ### Entity registry (`EntityManager`) -/

/-- The registry-relevant view of an entity: its ID and its type string
(`EntityType` is a Go string type; the factories produce `"sphere"` and
`"sprite"`). -/
structure REnt where
  id : String
  ty : String
deriving DecidableEq

/-- `EntityManager.AddEntity` (entity file, lines 403-407): append. -/
def AddEntity (entities : List REnt) (e : REnt) : List REnt :=
  entities ++ [e]

/-- `EntityManager.RemoveEntity` (entity file, lines 410-421): removes the
first entity whose ID matches and returns `true`; otherwise a no-op
returning `false`. -/
def RemoveEntity : List REnt → String → List REnt × Bool
  | [], _ => ([], false)
  | e :: rest, i =>
      if e.id = i then (rest, true)
      else
        let r := RemoveEntity rest i
        (e :: r.1, r.2)

/-- `EntityManager.Count` (entity file, lines 452-456). -/
def Count (entities : List REnt) : Nat :=
  entities.length

/-- `EntityManager.CountByType` (entity file, lines 459-469). -/
def CountByType (entities : List REnt) (entityType : String) : Nat :=
  (entities.filter (fun e => e.ty = entityType)).length

/-- A registry workload: a sequence of add and remove operations. -/
inductive RegOp where
  | add : REnt → RegOp
  | remove : String → RegOp

/-- Run a workload against a registry, counting the adds and the
successful removes. -/
def runRegOps : List RegOp → List REnt → List REnt × Nat × Nat
  | [], entities => (entities, 0, 0)
  | RegOp.add e :: rest, entities =>
      let r := runRegOps rest (AddEntity entities e)
      (r.1, r.2.1 + 1, r.2.2)
  | RegOp.remove i :: rest, entities =>
      let rm := RemoveEntity entities i
      let r := runRegOps rest rm.1
      (r.1, r.2.1, r.2.2 + (if rm.2 then 1 else 0))

/-! ### Lock usage of the `EntityManager` methods (for the concurrency
claim).  Transcribed from the method bodies: which of `em.mu.Lock()` /
`em.mu.RLock()` each public method acquires. -/

/-- The public `EntityManager` operations. -/
inductive EMOp where
  | addEntity | removeEntity | getEntities | getEntitiesByType
  | clear | count | countByType | update | checkCollisions
deriving DecidableEq

/-- Lock mode taken by a method body. -/
inductive LockUse where
  | noLock | readLock | writeLock
deriving DecidableEq

/-- Lock acquisition per method, transcribed from the source:
`AddEntity`/`RemoveEntity`/`Clear` take `mu.Lock()`; `GetEntities`,
`Count`, `CountByType`, `Update`, `CheckCollisions` take `mu.RLock()`;
`GetEntitiesByType` (entity file, lines 434-442) acquires NO lock at
all — it iterates `em.entities` directly. -/
def lockTaken : EMOp → LockUse
  | EMOp.addEntity => LockUse.writeLock
  | EMOp.removeEntity => LockUse.writeLock
  | EMOp.getEntities => LockUse.readLock
  | EMOp.getEntitiesByType => LockUse.noLock
  | EMOp.clear => LockUse.writeLock
  | EMOp.count => LockUse.readLock
  | EMOp.countByType => LockUse.readLock
  | EMOp.update => LockUse.readLock
  | EMOp.checkCollisions => LockUse.readLock

/-- Whether a method mutates the entity collection. -/
def mutates : EMOp → Bool
  | EMOp.addEntity => true
  | EMOp.removeEntity => true
  | EMOp.clear => true
  | _ => false

/-- The read-write-lock discipline asserted by the spec: every mutating
operation holds the write lock and every reading operation holds at
least the read lock (so readers run in parallel and writers exclude
everyone). -/
def disciplineOK : EMOp → Prop := fun op =>
  if mutates op then lockTaken op = LockUse.writeLock
  else lockTaken op ≠ LockUse.noLock

/-! ### Animation smoother -/

/-- `EntityAnimationState` (animation.go lines 23-40), physics-relevant
fields (the per-axis `harmonica.Spring` values are fixed by
`NewEntityAnimationState`: FPS 60, tension 300, damping 30, identical on
both axes, so they are not part of the state). -/
structure EAS where
  DisplayX : ℚ
  DisplayY : ℚ
  TargetX : ℚ
  TargetY : ℚ
  VelocityX : ℚ
  VelocityY : ℚ
  IsAnimating : Bool
deriving DecidableEq

/-- Modelled from the spec: the per-axis spring step of the external
`harmonica` library (`Spring.Update`), whose source is not part of this
repository.  Spec §4.3: "a standard mass-spring-damper … solved per-step
in closed form or semi-implicit integration; the exact numerical scheme
is an implementation choice", with tension 300, damping 30 at 60 Hz.
This is the semi-implicit (symplectic) Euler step at `h = 1/60`:
`v' = v + (tension·(target-pos) - damping·v)·h`, `pos' = pos + v'·h`. -/
def springUpdate (pos vel target : ℚ) : ℚ × ℚ :=
  let vel' := vel + (300 * (target - pos) - 30 * vel) * (1 / 60)
  (pos + vel' * (1 / 60), vel')

/-- `AnimationEngine.UpdateAnimation` (animation.go lines 84-107):
advance both axis springs, then declare convergence (`IsAnimating :=
false`) exactly when both axes are within 0.01 of target and both
spring velocities are below 0.01 in magnitude (strict comparisons, on
the just-updated values); otherwise `IsAnimating` is left unchanged. -/
def UpdateAnimation (eas : EAS) : EAS :=
  let px := springUpdate eas.DisplayX eas.VelocityX eas.TargetX
  let py := springUpdate eas.DisplayY eas.VelocityY eas.TargetY
  let converged :=
    |px.1 - eas.TargetX| < 0.01 && |py.1 - eas.TargetY| < 0.01 &&
    |px.2| < 0.01 && |py.2| < 0.01
  { eas with
    DisplayX := px.1, DisplayY := py.1,
    VelocityX := px.2, VelocityY := py.2,
    IsAnimating := if converged then false else eas.IsAnimating }

/-- `EntityAnimationState.SetTarget` (animation.go lines 69-81) on
rational (finite) inputs: the NaN/Inf guards cannot fire, so it stores
the target and marks the state animating. -/
def SetTarget (eas : EAS) (x y : ℚ) : EAS :=
  { eas with TargetX := x, TargetY := y, IsAnimating := true }

/-! ### Claim C2: pairwise collision detection -/

/-- C2 counterexample: the claim's concrete scenario is wrong.  Two
size-1 spheres (effective extent 0.8, radius 0.4) centered at (10,10)
and (10.5,10.5) are NOT detected as colliding: their center distance is
`sqrt 0.5 ≈ 0.707`, which is not below `(0.4+0.4) - 0.1 = 0.7`
(`0.5 < 0.49` fails).  The claim asserts they are detected. -/
theorem C2_counterexample :
    checkEntityCollision (NewPhysicsEngine 100 50)
      (NewSphere 10 10 1) (NewSphere 10.5 10.5 1) = false := by
  norm_num [checkEntityCollision, NewPhysicsEngine, NewSphere, GetBounds,
    effectiveSize, sqrtLtB_false_iff]

/-- C2 (amended): `checkEntityCollision` reports a collision iff the
Euclidean center distance is strictly below `(r1+r2) - ContactTolerance`
with each radius half the `GetBounds` width; concretely (default
tolerance 0.1) the size-1 spheres at (10,10)/(10.5,10.5) are NOT
colliding, size-2 spheres at those centers ARE, and spheres at
(10,10)/(20,20) are not. -/
theorem C2_theorem :
    (∀ (pe : PhysicsEngine) (e1 e2 : Ent),
      checkEntityCollision pe e1 e2 = true ↔
        Real.sqrt (((e2.x - e1.x) * (e2.x - e1.x) +
            (e2.y - e1.y) * (e2.y - e1.y) : ℚ) : ℝ) <
          (((GetBounds e1).2.2.1 / 2 + (GetBounds e2).2.2.1 / 2 -
            pe.ContactTolerance : ℚ) : ℝ)) ∧
    checkEntityCollision (NewPhysicsEngine 100 50)
      (NewSphere 10 10 1) (NewSphere 10.5 10.5 1) = false ∧
    checkEntityCollision (NewPhysicsEngine 100 50)
      (NewSphere 10 10 2) (NewSphere 10.5 10.5 2) = true ∧
    checkEntityCollision (NewPhysicsEngine 100 50)
      (NewSphere 10 10 1) (NewSphere 20 20 1) = false := by
  refine ⟨?_,
    by norm_num [checkEntityCollision, NewPhysicsEngine, NewSphere, GetBounds,
      effectiveSize, sqrtLtB_false_iff],
    by norm_num [checkEntityCollision, NewPhysicsEngine, NewSphere, GetBounds,
      effectiveSize, sqrtLtB_true_iff],
    by norm_num [checkEntityCollision, NewPhysicsEngine, NewSphere, GetBounds,
      effectiveSize, sqrtLtB_false_iff]⟩
  intro pe e1 e2
  simp only [checkEntityCollision]
  exact sqrtLtB_iff_sqrt_lt _ _

/-- C2 witness: the general characterization applied to the size-2
sphere pair of the repository's own test. -/
theorem C2_theorem_witness :
    checkEntityCollision (NewPhysicsEngine 100 50)
      (NewSphere 10 10 2) (NewSphere 10.5 10.5 2) = true ↔
      Real.sqrt ((((NewSphere 10.5 10.5 2).x - (NewSphere 10 10 2).x) *
          ((NewSphere 10.5 10.5 2).x - (NewSphere 10 10 2).x) +
          ((NewSphere 10.5 10.5 2).y - (NewSphere 10 10 2).y) *
          ((NewSphere 10.5 10.5 2).y - (NewSphere 10 10 2).y) : ℚ) : ℝ) <
        (((GetBounds (NewSphere 10 10 2)).2.2.1 / 2 +
          (GetBounds (NewSphere 10.5 10.5 2)).2.2.1 / 2 -
          (NewPhysicsEngine 100 50).ContactTolerance : ℚ) : ℝ) :=
  C2_theorem.1 (NewPhysicsEngine 100 50) (NewSphere 10 10 2) (NewSphere 10.5 10.5 2)

/-! ### Claim C5: no error signalling, degrade-on-invalid -/

/-- C5 counterexample: `BaseEntity.SetPosition` performs no validation —
a NaN X coordinate is stored as-is into core state, and `UpdateBounds`
likewise stores `NaN - 2 = NaN` as the new `MaxX`.  This refutes the
claim that every such operation degrades and never stores a non-finite
value. -/
theorem C5_counterexample :
    SetPositionF Fl.nan (Fl.fin 0) = (Fl.nan, Fl.fin 0) ∧
    (Fl.nan).isFinite = false ∧
    UpdateBoundsF Fl.nan (Fl.fin 50) = (Fl.nan, Fl.fin 48) := by
  refine ⟨rfl, rfl, ?_⟩
  norm_num [UpdateBoundsF, flSubFin]

/-- C5 (amended): no core operation signals an error, and the velocity
setter, `SetGravity` and `SetRestitution` do degrade safely (non-finite
velocity axes become 0; non-finite gravity and out-of-range or
non-finite restitution keep the prior value, restitution staying in
[0,1]); but the position setters store NaN/infinite coordinates
unchanged, and `UpdateBounds` stores `width-2`/`height-2` with no
validation at all. -/
theorem C5_theorem :
    (∀ vx vy : Fl, ((SetVelocityF vx vy).1.isFinite = true ∧
        (SetVelocityF vx vy).2.isFinite = true) ∧
      (vx.isFinite = false → (SetVelocityF vx vy).1 = Fl.fin 0) ∧
      (vy.isFinite = false → (SetVelocityF vx vy).2 = Fl.fin 0)) ∧
    (∀ old g : Fl, old.isFinite = true → (SetGravityF old g).isFinite = true) ∧
    (∀ (q : ℚ) (r : Fl), 0 ≤ q → q ≤ 1 →
      ∃ q' : ℚ, SetRestitutionF (Fl.fin q) r = Fl.fin q' ∧ 0 ≤ q' ∧ q' ≤ 1) ∧
    (∀ p q : Fl, SetPositionF p q = (p, q)) ∧
    UpdateBoundsF Fl.nan (Fl.fin 0) = (Fl.nan, Fl.fin (-2)) := by
  refine ⟨?_, ?_, ?_, ?_, by norm_num [UpdateBoundsF, flSubFin]⟩
  · intro vx vy
    cases vx <;> cases vy <;> simp [SetVelocityF, Fl.isFinite, Fl.isInf, Fl.isNaN]
  · intro old g hold
    cases old <;> cases g <;>
      simp_all [SetGravityF, Fl.isFinite, Fl.isInf, Fl.isNaN]
  · intro q r h0 h1
    cases r with
    | fin v =>
        by_cases hv : 0 ≤ v ∧ v ≤ 1
        · exact ⟨v, by simp [SetRestitutionF, flLe, hv.1, hv.2], hv.1, hv.2⟩
        · refine ⟨q, ?_, h0, h1⟩
          rw [not_and_or] at hv
          rcases hv with hv | hv <;>
            simp [SetRestitutionF, flLe, not_le.mp hv]
    | inf s => cases s <;> exact ⟨q, by simp [SetRestitutionF, flLe], h0, h1⟩
    | nan => exact ⟨q, by simp [SetRestitutionF, flLe], h0, h1⟩
  · intro p q
    rfl

/-- C5 witness: the amended guarantees applied at concrete inputs — a
NaN velocity pair is sanitized to zero, finite gravity survives a NaN
update, and a restitution of 0.7 rejects an out-of-range 1.5. -/
theorem C5_theorem_witness :
    ((SetVelocityF Fl.nan (Fl.inf true)).1 = Fl.fin 0) ∧
    (SetGravityF (Fl.fin 25) Fl.nan).isFinite = true ∧
    (∃ q' : ℚ, SetRestitutionF (Fl.fin 0.7) (Fl.fin 1.5) = Fl.fin q' ∧
      0 ≤ q' ∧ q' ≤ 1) :=
  ⟨(C5_theorem.1 Fl.nan (Fl.inf true)).2.1 (by decide),
   C5_theorem.2.1 (Fl.fin 25) Fl.nan (by decide),
   C5_theorem.2.2.1 0.7 (Fl.fin 1.5) (by norm_num) (by norm_num)⟩

/-! ### Claim C9: registry lock discipline -/

/-- C9: the read-write-lock discipline is broken at exactly one public
operation.  `GetEntitiesByType` acquires no lock at all (entity file,
lines 434-442 have no `mu.RLock()`), violating the claimed discipline,
while every other public `EntityManager` method conforms (writers take
the write lock, readers the read lock). -/
theorem C9_theorem :
    lockTaken EMOp.getEntitiesByType = LockUse.noLock ∧
    ¬ disciplineOK EMOp.getEntitiesByType ∧
    disciplineOK EMOp.addEntity ∧ disciplineOK EMOp.removeEntity ∧
    disciplineOK EMOp.clear ∧ disciplineOK EMOp.getEntities ∧
    disciplineOK EMOp.count ∧ disciplineOK EMOp.countByType ∧
    disciplineOK EMOp.update ∧ disciplineOK EMOp.checkCollisions := by
  refine ⟨rfl, ?_, ?_, ?_, ?_, ?_, ?_, ?_, ?_, ?_⟩ <;>
    simp [disciplineOK, lockTaken, mutates]

/-! ### Claim C10: entity-level AABB collision test -/

/-- Stated from the claim's words, for comparison with the code's
`CheckCollision`: the two axis-aligned bounding boxes overlap or merely
touch at an edge (boundary contact included). -/
def boxesOverlapOrTouch (e1 e2 : Ent) : Prop :=
  let b1 := GetBounds e1
  let b2 := GetBounds e2
  b2.1 ≤ b1.1 + b1.2.2.1 ∧ b1.1 ≤ b2.1 + b2.2.2.1 ∧
  b2.2.1 ≤ b1.2.1 + b1.2.2.2 ∧ b1.2.1 ≤ b2.2.1 + b2.2.2.2

/-- C10: `BaseEntity.CheckCollision` is exactly the touch-inclusive AABB
overlap test on `GetBounds` boxes, with no contact tolerance — and it
therefore disagrees with the engine's circular-distance test
`checkEntityCollision` on a concrete pair (the size-1 spheres at
(10,10)/(10.5,10.5): boxes overlap, so `CheckCollision` is true, while
the tolerance-adjusted circle test is false). -/
theorem C10_theorem :
    (∀ e1 e2 : Ent, CheckCollision e1 e2 = true ↔ boxesOverlapOrTouch e1 e2) ∧
    CheckCollision (NewSphere 10 10 1) (NewSphere 10.5 10.5 1) = true ∧
    checkEntityCollision (NewPhysicsEngine 100 50)
      (NewSphere 10 10 1) (NewSphere 10.5 10.5 1) = false := by
  refine ⟨?_,
    by norm_num [CheckCollision, NewSphere, GetBounds, effectiveSize],
    by norm_num [checkEntityCollision, NewPhysicsEngine, NewSphere, GetBounds,
      effectiveSize, sqrtLtB_false_iff]⟩
  intro e1 e2
  simp only [CheckCollision, boxesOverlapOrTouch, Bool.not_eq_true',
    Bool.or_eq_false_iff, decide_eq_false_iff_not, not_lt]
  tauto

/-- C10 witness: the AABB characterization applied to two touching
boxes — size-2 entities whose boxes share exactly one edge are reported
as colliding. -/
theorem C10_theorem_witness :
    CheckCollision
        { x := 0, y := 0, vx := 0, vy := 0, size := 2, mass := 1, shape := EntShape.box }
        { x := 1, y := 0, vx := 0, vy := 0, size := 2, mass := 1, shape := EntShape.box } = true ↔
      boxesOverlapOrTouch
        { x := 0, y := 0, vx := 0, vy := 0, size := 2, mass := 1, shape := EntShape.box }
        { x := 1, y := 0, vx := 0, vy := 0, size := 2, mass := 1, shape := EntShape.box } :=
  C10_theorem.1 _ _

/-- `Pause` (physics.go lines 345-347): zero the timestep. -/
def Pause (pe : PhysicsEngine) : PhysicsEngine :=
  { pe with DeltaTime := 0 }

/-- `Resume` (physics.go lines 350-352). -/
def Resume (pe : PhysicsEngine) : PhysicsEngine :=
  { pe with DeltaTime := 0.1 }

/-- `IsRunning` (physics.go lines 355-357). -/
def IsRunning (pe : PhysicsEngine) : Bool :=
  decide (0 < pe.DeltaTime)

/-! ### Claim C1: boundary reflection -/

/-- C1 counterexample: a size-2 entity at x = 1.3 (engine bounds 20×20,
`MinX = 1`).  Its claim-stated bounding box (center ± effectiveExtent/2
= 1.3 ± 0.5) crosses the left wall, so the claim requires the position
to be clamped to `MinX + effectiveExtent/2 = 1.5`; but
`handleBoundaryCollisions` uses the RAW size (box 1.3 ± 1) and clamps
the center to `MinX + size/2 = 2` instead. -/
theorem C1_counterexample :
    (1.3 - effectiveSize 2 / 2 ≤ (NewPhysicsEngine 20 20).MinX) ∧
    (handleBoundaryCollisions (NewPhysicsEngine 20 20)
      { x := 1.3, y := 10, vx := -5, vy := 0, size := 2, mass := 1,
        shape := EntShape.box }).x = 2 ∧
    (NewPhysicsEngine 20 20).MinX + effectiveSize 2 / 2 ≠ 2 := by
  refine ⟨by norm_num [effectiveSize, NewPhysicsEngine], ?_,
    by norm_num [effectiveSize, NewPhysicsEngine]⟩
  norm_num [handleBoundaryCollisions, NewPhysicsEngine]

/-- C1 (amended): `handleBoundaryCollisions` computes the bounding box
from the RAW integer size (center ± size/2), not the effective-extent
table.  An entity whose raw box crosses exactly one wall is clamped to
center = wall ± size/2 with the wall-normal velocity replaced by
`-restitution` times itself and the tangential component unchanged; X is
processed before Y and the Y correction positions with the
already-corrected X; but the Y correction writes the velocity pair read
at entry, so when an X wall and a Y wall are both crossed the X-axis
reflection is overwritten by the original X velocity. -/
theorem C1_theorem :
    ∀ (pe : PhysicsEngine) (e : Ent),
      (e.x - (e.size : ℚ) / 2 ≤ pe.MinX →
        ¬(e.y - (e.size : ℚ) / 2 ≤ pe.MinY) → ¬(e.y + (e.size : ℚ) / 2 ≥ pe.MaxY) →
        handleBoundaryCollisions pe e =
          { e with x := pe.MinX + (e.size : ℚ) / 2, vx := -e.vx * pe.Restitution }) ∧
      (¬(e.x - (e.size : ℚ) / 2 ≤ pe.MinX) → e.x + (e.size : ℚ) / 2 ≥ pe.MaxX →
        ¬(e.y - (e.size : ℚ) / 2 ≤ pe.MinY) → ¬(e.y + (e.size : ℚ) / 2 ≥ pe.MaxY) →
        handleBoundaryCollisions pe e =
          { e with x := pe.MaxX - (e.size : ℚ) / 2, vx := -e.vx * pe.Restitution }) ∧
      (¬(e.x - (e.size : ℚ) / 2 ≤ pe.MinX) → ¬(e.x + (e.size : ℚ) / 2 ≥ pe.MaxX) →
        e.y - (e.size : ℚ) / 2 ≤ pe.MinY →
        handleBoundaryCollisions pe e =
          { e with y := pe.MinY + (e.size : ℚ) / 2, vy := -e.vy * pe.Restitution }) ∧
      (¬(e.x - (e.size : ℚ) / 2 ≤ pe.MinX) → ¬(e.x + (e.size : ℚ) / 2 ≥ pe.MaxX) →
        ¬(e.y - (e.size : ℚ) / 2 ≤ pe.MinY) → e.y + (e.size : ℚ) / 2 ≥ pe.MaxY →
        handleBoundaryCollisions pe e =
          { e with y := pe.MaxY - (e.size : ℚ) / 2, vy := -e.vy * pe.Restitution }) ∧
      (e.x - (e.size : ℚ) / 2 ≤ pe.MinX → e.y - (e.size : ℚ) / 2 ≤ pe.MinY →
        handleBoundaryCollisions pe e =
          { e with x := pe.MinX + (e.size : ℚ) / 2, y := pe.MinY + (e.size : ℚ) / 2,
                   vx := e.vx, vy := -e.vy * pe.Restitution }) := by
  intro pe e
  refine ⟨?_, ?_, ?_, ?_, ?_⟩ <;>
    · intros
      simp only [handleBoundaryCollisions]
      split_ifs <;> try rfl
      all_goals exfalso
      all_goals simp only [ge_iff_le, not_le] at *
      all_goals linarith

/-- C1 witness: the single-left-wall clause applied to the concrete
size-2 entity at (1.3, 10) moving left in the 20×20 engine. -/
theorem C1_theorem_witness :
    handleBoundaryCollisions (NewPhysicsEngine 20 20)
      { x := 1.3, y := 10, vx := -5, vy := 0, size := 2, mass := 1,
        shape := EntShape.box } =
      { x := (NewPhysicsEngine 20 20).MinX + ((2 : ℤ) : ℚ) / 2, y := 10,
        vx := -(-5) * (NewPhysicsEngine 20 20).Restitution, vy := 0,
        size := 2, mass := 1, shape := EntShape.box } :=
  (C1_theorem (NewPhysicsEngine 20 20)
    { x := 1.3, y := 10, vx := -5, vy := 0, size := 2, mass := 1,
      shape := EntShape.box }).1
    (by norm_num [NewPhysicsEngine])
    (by norm_num [NewPhysicsEngine])
    (by norm_num [NewPhysicsEngine])

/-! ### Claim C4: paused engine -/

/-- C4 counterexample: with the engine paused (`DeltaTime = 0`), a mass-1
entity at (10,10) with velocity (10,0) still has its velocity changed by
`ApplyPhysics`: air resistance is not scaled by the timestep, so the X
velocity becomes `10 - 0.05·10 = 9.5 ≠ 10`.  The claim says no entity
state is mutated while paused. -/
theorem C4_counterexample :
    (Pause (NewPhysicsEngine 100 50)).DeltaTime = 0 ∧
    (applyPhysicsOne (Pause (NewPhysicsEngine 100 50))
      { x := 10, y := 10, vx := 10, vy := 0, size := 2, mass := 1,
        shape := EntShape.circle 0.5 }).vx = 9.5 ∧ (9.5 : ℚ) ≠ 10 := by
  refine ⟨rfl, ?_, by norm_num⟩
  norm_num [applyPhysicsOne, applyGravity, applyAirResistance, ApplyForce,
    updatePosition, handleBoundaryCollisions, capVelocity, Pause,
    NewPhysicsEngine, sqrtLtB, abs_of_nonneg]

/-- C4 (amended): while paused, `ApplyPhysics` leaves the physics
position of an entity unchanged provided its raw-size box is strictly
inside the walls, but the velocity is still mutated — the tick reduces
to air resistance (which is not timestep-scaled) followed by velocity
capping/settling. -/
theorem C4_theorem :
    ∀ (pe : PhysicsEngine) (e : Ent),
      pe.DeltaTime = 0 → 0 < e.mass →
      ¬(e.x - (e.size : ℚ) / 2 ≤ pe.MinX) → ¬(e.x + (e.size : ℚ) / 2 ≥ pe.MaxX) →
      ¬(e.y - (e.size : ℚ) / 2 ≤ pe.MinY) → ¬(e.y + (e.size : ℚ) / 2 ≥ pe.MaxY) →
      applyPhysicsOne pe e = capVelocity pe (applyAirResistance pe e) ∧
      (applyPhysicsOne pe e).x = e.x ∧ (applyPhysicsOne pe e).y = e.y := by
  intro pe e hdt hm h1 h2 h3 h4
  obtain ⟨x, y, vx, vy, size, mass, shape⟩ := e
  have hgrav : applyGravity pe ⟨x, y, vx, vy, size, mass, shape⟩ =
      ⟨x, y, vx, vy, size, mass, shape⟩ := by
    simp [applyGravity, ApplyForce, hdt, hm]
  have hair : ∃ vx' vy' : ℚ,
      applyAirResistance pe ⟨x, y, vx, vy, size, mass, shape⟩ =
        ⟨x, y, vx', vy', size, mass, shape⟩ := by
    simp only [applyAirResistance, ApplyForce]
    split <;> exact ⟨_, _, rfl⟩
  obtain ⟨vx', vy', hair⟩ := hair
  have hupd : updatePosition pe ⟨x, y, vx', vy', size, mass, shape⟩ =
      ⟨x, y, vx', vy', size, mass, shape⟩ := by
    simp [updatePosition, hdt]
  have hbound : handleBoundaryCollisions pe ⟨x, y, vx', vy', size, mass, shape⟩ =
      ⟨x, y, vx', vy', size, mass, shape⟩ := by
    simp only [handleBoundaryCollisions]
    split_ifs <;> try rfl
    all_goals exfalso
    all_goals simp only [ge_iff_le, not_le] at *
    all_goals linarith
  refine ⟨?_, ?_, ?_⟩
  · simp [applyPhysicsOne, hgrav, hair, hupd, hbound]
  · simp [applyPhysicsOne, hgrav, hair, hupd, hbound, capVelocity]
  · simp [applyPhysicsOne, hgrav, hair, hupd, hbound, capVelocity]

/-- C4 witness: the amended statement at the counterexample's concrete
paused engine and entity. -/
theorem C4_theorem_witness :
    applyPhysicsOne (Pause (NewPhysicsEngine 100 50))
        { x := 10, y := 10, vx := 10, vy := 0, size := 2, mass := 1,
          shape := EntShape.circle 0.5 } =
      capVelocity (Pause (NewPhysicsEngine 100 50))
        (applyAirResistance (Pause (NewPhysicsEngine 100 50))
          { x := 10, y := 10, vx := 10, vy := 0, size := 2, mass := 1,
            shape := EntShape.circle 0.5 }) ∧
    (applyPhysicsOne (Pause (NewPhysicsEngine 100 50))
        { x := 10, y := 10, vx := 10, vy := 0, size := 2, mass := 1,
          shape := EntShape.circle 0.5 }).x = 10 ∧
    (applyPhysicsOne (Pause (NewPhysicsEngine 100 50))
        { x := 10, y := 10, vx := 10, vy := 0, size := 2, mass := 1,
          shape := EntShape.circle 0.5 }).y = 10 :=
  C4_theorem (Pause (NewPhysicsEngine 100 50))
    { x := 10, y := 10, vx := 10, vy := 0, size := 2, mass := 1,
      shape := EntShape.circle 0.5 }
    rfl (by norm_num) (by norm_num [Pause, NewPhysicsEngine])
    (by norm_num [Pause, NewPhysicsEngine]) (by norm_num [Pause, NewPhysicsEngine])
    (by norm_num [Pause, NewPhysicsEngine])

/-- Projection helper: default `MaxVelocity` is 50. -/
lemma NPE_MaxVelocity (w h : ℚ) : (NewPhysicsEngine w h).MaxVelocity = 50 := rfl

/-- Projection helper: default `MinVelocity` is 0.05. -/
lemma NPE_MinVelocity (w h : ℚ) : (NewPhysicsEngine w h).MinVelocity = 0.05 := rfl

/-- Projection helper: default `StaticFriction` is 0.8. -/
lemma NPE_StaticFriction (w h : ℚ) : (NewPhysicsEngine w h).StaticFriction = 0.8 := rfl

/-- Projection helper: default `Restitution` is 0.7. -/
lemma NPE_Restitution (w h : ℚ) : (NewPhysicsEngine w h).Restitution = 0.7 := rfl

/-! ### Claim C3: collision resolution symmetry -/

/-- C3 counterexample.  First part: two overlapping, approaching size-1
spheres whose relative speed (0.03) is below `MinVelocity` (0.05) — the
rest-contact branch zeroes BOTH velocities outright, so entity 1's
velocity change is (-0.03, 0) while entity 2's is (0, 0): not equal and
opposite.  Second part: with restitution 0.5 (a legal value) the
post-impulse pair is STILL approaching — the normal relative velocity
stays negative — refuting the claim's unconditional re-check clause. -/
theorem C3_counterexample :
    (resolveCollisionVel (NewPhysicsEngine 100 50)
        { x := 10, y := 10, vx := 0.03, vy := 0, size := 1, mass := 0.8,
          shape := EntShape.circle 0.4 }
        { x := 10.5, y := 10, vx := 0, vy := 0, size := 1, mass := 0.8,
          shape := EntShape.circle 0.4 } 0 0 = ((0, 0), (0, 0)) ∧
      ¬((0 : ℚ) - 0.03 = -((0 : ℚ) - 0))) ∧
    ((resolveCollisionVel { NewPhysicsEngine 100 50 with Restitution := 0.5 }
          { x := 10, y := 10, vx := 5, vy := 0, size := 1, mass := 0.8,
            shape := EntShape.circle 0.4 }
          { x := 10.5, y := 10, vx := -5, vy := 0, size := 1, mass := 0.8,
            shape := EntShape.circle 0.4 } 0 0).2.1 -
        (resolveCollisionVel { NewPhysicsEngine 100 50 with Restitution := 0.5 }
          { x := 10, y := 10, vx := 5, vy := 0, size := 1, mass := 0.8,
            shape := EntShape.circle 0.4 }
          { x := 10.5, y := 10, vx := -5, vy := 0, size := 1, mass := 0.8,
            shape := EntShape.circle 0.4 } 0 0).1.1) * (10.5 - 10) < 0 := by
  constructor
  · constructor
    · norm_num [resolveCollisionVel, NewPhysicsEngine, sqrtLtB]
    · norm_num
  · norm_num [resolveCollisionVel, NewPhysicsEngine, sqrtLtB]

/-- C3 (amended): for entities with overlapping bounding circles at
distinct centers and approaching velocities, PROVIDED the relative speed
is at least `MinVelocity` (otherwise both velocities are zeroed
outright) and `1.9·restitution ≥ 1` (true of the default 0.7),
`resolveCollision` changes the two velocities by equal and opposite
amounts along the collision normal, and the immediate re-check finds the
pair no longer approaching. -/
theorem C3_theorem :
    ∀ (pe : PhysicsEngine) (e1 e2 : Ent) (rnd1 rnd2 : ℚ),
      (e2.x - e1.x) * (e2.x - e1.x) + (e2.y - e1.y) * (e2.y - e1.y) ≠ 0 →
      sqrtLtB ((e2.x - e1.x) * (e2.x - e1.x) + (e2.y - e1.y) * (e2.y - e1.y))
        ((GetBounds e1).2.2.1 / 2 + (GetBounds e2).2.2.1 / 2) = true →
      (e2.vx - e1.vx) * (e2.x - e1.x) + (e2.vy - e1.vy) * (e2.y - e1.y) < 0 →
      sqrtLtB ((e2.vx - e1.vx) * (e2.vx - e1.vx) + (e2.vy - e1.vy) * (e2.vy - e1.vy))
        pe.MinVelocity = false →
      1 ≤ 1.9 * pe.Restitution →
      ∃ c : ℚ,
        (resolveCollisionVel pe e1 e2 rnd1 rnd2).1.1 - e1.vx = c * (e2.x - e1.x) ∧
        (resolveCollisionVel pe e1 e2 rnd1 rnd2).1.2 - e1.vy = c * (e2.y - e1.y) ∧
        (resolveCollisionVel pe e1 e2 rnd1 rnd2).2.1 - e2.vx = -(c * (e2.x - e1.x)) ∧
        (resolveCollisionVel pe e1 e2 rnd1 rnd2).2.2 - e2.vy = -(c * (e2.y - e1.y)) ∧
        0 ≤ ((resolveCollisionVel pe e1 e2 rnd1 rnd2).2.1 -
              (resolveCollisionVel pe e1 e2 rnd1 rnd2).1.1) * (e2.x - e1.x) +
            ((resolveCollisionVel pe e1 e2 rnd1 rnd2).2.2 -
              (resolveCollisionVel pe e1 e2 rnd1 rnd2).1.2) * (e2.y - e1.y) := by
  intro pe e1 e2 rnd1 rnd2 h0 _hover happr hspeed hrest
  have hng : ¬(0 < (e2.vx - e1.vx) * (e2.x - e1.x) + (e2.vy - e1.vy) * (e2.y - e1.y)) :=
    not_lt.mpr happr.le
  simp only [resolveCollisionVel, h0, hng, hspeed, if_false, ite_false,
    Bool.false_eq_true, if_neg, not_false_eq_true]
  refine ⟨pe.Restitution * 0.95 *
    ((e2.vx - e1.vx) * (e2.x - e1.x) + (e2.vy - e1.vy) * (e2.y - e1.y)) /
    ((e2.x - e1.x) * (e2.x - e1.x) + (e2.y - e1.y) * (e2.y - e1.y)),
    by ring, by ring, by ring, by ring, ?_⟩
  have hcancel : pe.Restitution * 0.95 *
      ((e2.vx - e1.vx) * (e2.x - e1.x) + (e2.vy - e1.vy) * (e2.y - e1.y)) /
      ((e2.x - e1.x) * (e2.x - e1.x) + (e2.y - e1.y) * (e2.y - e1.y)) *
      ((e2.x - e1.x) * (e2.x - e1.x) + (e2.y - e1.y) * (e2.y - e1.y)) =
      pe.Restitution * 0.95 *
      ((e2.vx - e1.vx) * (e2.x - e1.x) + (e2.vy - e1.vy) * (e2.y - e1.y)) :=
    div_mul_cancel₀ _ h0
  have hmul : 0 ≤ -((e2.vx - e1.vx) * (e2.x - e1.x) + (e2.vy - e1.vy) * (e2.y - e1.y)) *
      (1.9 * pe.Restitution - 1) :=
    mul_nonneg (by linarith) (by linarith)
  nlinarith [hcancel, hmul]

/-- C3 witness: the amended statement at two approaching size-1 spheres
with the default engine. -/
theorem C3_theorem_witness :
    ∃ c : ℚ,
      (resolveCollisionVel (NewPhysicsEngine 100 50)
          { x := 10, y := 10, vx := 5, vy := 0, size := 1, mass := 0.8,
            shape := EntShape.circle 0.4 }
          { x := 10.5, y := 10, vx := -5, vy := 0, size := 1, mass := 0.8,
            shape := EntShape.circle 0.4 } 0 0).1.1 - 5 = c * (10.5 - 10) ∧
      (resolveCollisionVel (NewPhysicsEngine 100 50)
          { x := 10, y := 10, vx := 5, vy := 0, size := 1, mass := 0.8,
            shape := EntShape.circle 0.4 }
          { x := 10.5, y := 10, vx := -5, vy := 0, size := 1, mass := 0.8,
            shape := EntShape.circle 0.4 } 0 0).1.2 - 0 = c * (10 - 10) ∧
      (resolveCollisionVel (NewPhysicsEngine 100 50)
          { x := 10, y := 10, vx := 5, vy := 0, size := 1, mass := 0.8,
            shape := EntShape.circle 0.4 }
          { x := 10.5, y := 10, vx := -5, vy := 0, size := 1, mass := 0.8,
            shape := EntShape.circle 0.4 } 0 0).2.1 - (-5) = -(c * (10.5 - 10)) ∧
      (resolveCollisionVel (NewPhysicsEngine 100 50)
          { x := 10, y := 10, vx := 5, vy := 0, size := 1, mass := 0.8,
            shape := EntShape.circle 0.4 }
          { x := 10.5, y := 10, vx := -5, vy := 0, size := 1, mass := 0.8,
            shape := EntShape.circle 0.4 } 0 0).2.2 - 0 = -(c * (10 - 10)) ∧
      0 ≤ ((resolveCollisionVel (NewPhysicsEngine 100 50)
            { x := 10, y := 10, vx := 5, vy := 0, size := 1, mass := 0.8,
              shape := EntShape.circle 0.4 }
            { x := 10.5, y := 10, vx := -5, vy := 0, size := 1, mass := 0.8,
              shape := EntShape.circle 0.4 } 0 0).2.1 -
          (resolveCollisionVel (NewPhysicsEngine 100 50)
            { x := 10, y := 10, vx := 5, vy := 0, size := 1, mass := 0.8,
              shape := EntShape.circle 0.4 }
            { x := 10.5, y := 10, vx := -5, vy := 0, size := 1, mass := 0.8,
              shape := EntShape.circle 0.4 } 0 0).1.1) * (10.5 - 10) +
          ((resolveCollisionVel (NewPhysicsEngine 100 50)
            { x := 10, y := 10, vx := 5, vy := 0, size := 1, mass := 0.8,
              shape := EntShape.circle 0.4 }
            { x := 10.5, y := 10, vx := -5, vy := 0, size := 1, mass := 0.8,
              shape := EntShape.circle 0.4 } 0 0).2.2 -
          (resolveCollisionVel (NewPhysicsEngine 100 50)
            { x := 10, y := 10, vx := 5, vy := 0, size := 1, mass := 0.8,
              shape := EntShape.circle 0.4 }
            { x := 10.5, y := 10, vx := -5, vy := 0, size := 1, mass := 0.8,
              shape := EntShape.circle 0.4 } 0 0).1.2) * (10 - 10) :=
  C3_theorem (NewPhysicsEngine 100 50)
    { x := 10, y := 10, vx := 5, vy := 0, size := 1, mass := 0.8,
      shape := EntShape.circle 0.4 }
    { x := 10.5, y := 10, vx := -5, vy := 0, size := 1, mass := 0.8,
      shape := EntShape.circle 0.4 } 0 0
    (by norm_num) (by norm_num [sqrtLtB, GetBounds])
    (by norm_num) (by norm_num [sqrtLtB_false_iff, NPE_MinVelocity])
    (by norm_num [NPE_Restitution])

/-! ### Claim C6: settling to rest -/

/-- From `a*a < r*r` with `0 < r` conclude `|a| < r`. -/
lemma abs_lt_of_mul_self_lt {a r : ℚ} (hr : 0 < r) (h : a * a < r * r) :
    |a| < r := by
  rw [abs_lt]
  constructor <;> nlinarith

/-- One `capVelocity` call on a sub-threshold velocity shrinks the
squared speed by the static-friction factor 0.8 (squared). -/
lemma capVelocity_shrink (w h : ℚ) (e : Ent) (r : ℚ)
    (hr0 : 0 < r) (hr : r ≤ 0.15)
    (hv : e.vx * e.vx + e.vy * e.vy < r * r) :
    (capVelocity (NewPhysicsEngine w h) e).vx * (capVelocity (NewPhysicsEngine w h) e).vx +
      (capVelocity (NewPhysicsEngine w h) e).vy * (capVelocity (NewPhysicsEngine w h) e).vy
      < (0.8 * r) * (0.8 * r) := by
  have hx : |e.vx| < r :=
    abs_lt_of_mul_self_lt hr0 (by nlinarith [mul_self_nonneg e.vy])
  have hy : |e.vy| < r :=
    abs_lt_of_mul_self_lt hr0 (by nlinarith [mul_self_nonneg e.vx])
  have hfr : sqrtLtB (e.vx * e.vx + e.vy * e.vy) ((0.05 : ℚ) * 3) = true := by
    rw [sqrtLtB_true_iff]
    constructor
    · norm_num
    · nlinarith
  simp only [capVelocity, NPE_MaxVelocity, NPE_MinVelocity, NPE_StaticFriction]
  rw [if_neg (by rw [not_lt]; linarith [abs_nonneg e.vx] : ¬((50 : ℚ) < |e.vx|)),
    if_neg (by rw [not_lt]; linarith [abs_nonneg e.vy] : ¬((50 : ℚ) < |e.vy|)),
    if_pos hfr]
  split_ifs <;> nlinarith [mul_self_nonneg e.vx, mul_self_nonneg e.vy]

/-- Once the squared speed is below `0.0625²`, `capVelocity` zeroes both
components: after the 0.8 friction factor each component is below the
0.05 stopping threshold. -/
lemma capVelocity_zeroes (w h : ℚ) (e : Ent)
    (hv : e.vx * e.vx + e.vy * e.vy < 0.0625 * 0.0625) :
    (capVelocity (NewPhysicsEngine w h) e).vx = 0 ∧
    (capVelocity (NewPhysicsEngine w h) e).vy = 0 := by
  have hx : |e.vx| < 0.0625 :=
    abs_lt_of_mul_self_lt (by norm_num) (by nlinarith [mul_self_nonneg e.vy])
  have hy : |e.vy| < 0.0625 :=
    abs_lt_of_mul_self_lt (by norm_num) (by nlinarith [mul_self_nonneg e.vx])
  have hfr : sqrtLtB (e.vx * e.vx + e.vy * e.vy) ((0.05 : ℚ) * 3) = true := by
    rw [sqrtLtB_true_iff]
    constructor
    · norm_num
    · nlinarith
  simp only [capVelocity, NPE_MaxVelocity, NPE_MinVelocity, NPE_StaticFriction]
  rw [if_neg (by rw [not_lt]; linarith [abs_nonneg e.vx] : ¬((50 : ℚ) < |e.vx|)),
    if_neg (by rw [not_lt]; linarith [abs_nonneg e.vy] : ¬((50 : ℚ) < |e.vy|)),
    if_pos hfr]
  have hzx : |e.vx * 0.8| < 0.05 := by
    rw [abs_mul]
    rw [show |(0.8 : ℚ)| = 0.8 from abs_of_nonneg (by norm_num)]
    linarith
  have hzy : |e.vy * 0.8| < 0.05 := by
    rw [abs_mul]
    rw [show |(0.8 : ℚ)| = 0.8 from abs_of_nonneg (by norm_num)]
    linarith
  rw [if_pos hzx, if_pos hzy]
  exact ⟨rfl, rfl⟩

/-- C6: an entity whose total speed is below `3·MinVelocity` (the
static-friction threshold, stated as the code's own `sqrtLtB` test) is
driven to exactly (0,0) within 5 `capVelocity` calls, and a zero
velocity is a fixed point of `capVelocity`. -/
theorem C6_theorem :
    (∀ (w h : ℚ) (e : Ent),
      sqrtLtB (e.vx * e.vx + e.vy * e.vy) ((NewPhysicsEngine w h).MinVelocity * 3) = true →
      ((capVelocity (NewPhysicsEngine w h))^[5] e).vx = 0 ∧
      ((capVelocity (NewPhysicsEngine w h))^[5] e).vy = 0) ∧
    (∀ (w h : ℚ) (e : Ent), e.vx = 0 → e.vy = 0 →
      (capVelocity (NewPhysicsEngine w h) e).vx = 0 ∧
      (capVelocity (NewPhysicsEngine w h) e).vy = 0) := by
  constructor
  · intro w h e hsub
    rw [NPE_MinVelocity, sqrtLtB_true_iff] at hsub
    have h0 : e.vx * e.vx + e.vy * e.vy < 0.15 * 0.15 := by
      have h2 := hsub.2
      norm_num at h2 ⊢
      linarith
    have s1 := capVelocity_shrink w h e 0.15 (by norm_num) (by norm_num) h0
    have s2 := capVelocity_shrink w h (capVelocity (NewPhysicsEngine w h) e)
      (0.8 * 0.15) (by norm_num) (by norm_num) s1
    have s3 := capVelocity_shrink w h
      (capVelocity (NewPhysicsEngine w h) (capVelocity (NewPhysicsEngine w h) e))
      (0.8 * (0.8 * 0.15)) (by norm_num) (by norm_num) s2
    have s4 := capVelocity_shrink w h
      (capVelocity (NewPhysicsEngine w h) (capVelocity (NewPhysicsEngine w h)
        (capVelocity (NewPhysicsEngine w h) e)))
      (0.8 * (0.8 * (0.8 * 0.15))) (by norm_num) (by norm_num) s3
    have s5 := capVelocity_zeroes w h
      (capVelocity (NewPhysicsEngine w h) (capVelocity (NewPhysicsEngine w h)
        (capVelocity (NewPhysicsEngine w h) (capVelocity (NewPhysicsEngine w h) e))))
      (by nlinarith [s4])
    have hiter : (capVelocity (NewPhysicsEngine w h))^[5] e =
        capVelocity (NewPhysicsEngine w h) (capVelocity (NewPhysicsEngine w h)
          (capVelocity (NewPhysicsEngine w h) (capVelocity (NewPhysicsEngine w h)
            (capVelocity (NewPhysicsEngine w h) e)))) := by
      rfl
    rw [hiter]
    exact s5
  · intro w h e hvx hvy
    exact capVelocity_zeroes w h e (by rw [hvx, hvy]; norm_num)

/-- C6 witness: a velocity of (0.1, 0.1) — speed ≈ 0.141 < 0.15 — is
annihilated by five `capVelocity` calls. -/
theorem C6_theorem_witness :
    ((capVelocity (NewPhysicsEngine 100 50))^[5]
        { x := 0, y := 0, vx := 0.1, vy := 0.1, size := 1, mass := 0.8,
          shape := EntShape.circle 0.4 }).vx = 0 ∧
    ((capVelocity (NewPhysicsEngine 100 50))^[5]
        { x := 0, y := 0, vx := 0.1, vy := 0.1, size := 1, mass := 0.8,
          shape := EntShape.circle 0.4 }).vy = 0 :=
  C6_theorem.1 100 50
    { x := 0, y := 0, vx := 0.1, vy := 0.1, size := 1, mass := 0.8,
      shape := EntShape.circle 0.4 }
    (by norm_num [sqrtLtB, NPE_MinVelocity])

/-! ### Claim C7: animation convergence

The spring step diagonalizes exactly over ℚ: with tension 300, damping
30 and h = 1/60 the error/velocity pair evolves with eigenvalues 3/4 and
2/3, witnessed by the two invariant linear combinations
`P = 30·(pos-target) + vel` and `Q = 20·(pos-target) + vel`. -/

/-- The spring step scales `30·(pos-target) + vel` by exactly 3/4. -/
lemma springUpdate_P (p v t : ℚ) :
    30 * ((springUpdate p v t).1 - t) + (springUpdate p v t).2 =
      3 / 4 * (30 * (p - t) + v) := by
  simp only [springUpdate]
  ring

/-- The spring step scales `20·(pos-target) + vel` by exactly 2/3. -/
lemma springUpdate_Q (p v t : ℚ) :
    20 * ((springUpdate p v t).1 - t) + (springUpdate p v t).2 =
      2 / 3 * (20 * (p - t) + v) := by
  simp only [springUpdate]
  ring

/-- `UpdateAnimation` field lemma: new X display position. -/
lemma UA_DisplayX (eas : EAS) : (UpdateAnimation eas).DisplayX =
    (springUpdate eas.DisplayX eas.VelocityX eas.TargetX).1 := rfl

/-- `UpdateAnimation` field lemma: new X spring velocity. -/
lemma UA_VelocityX (eas : EAS) : (UpdateAnimation eas).VelocityX =
    (springUpdate eas.DisplayX eas.VelocityX eas.TargetX).2 := rfl

/-- `UpdateAnimation` preserves the X target. -/
lemma UA_TargetX (eas : EAS) : (UpdateAnimation eas).TargetX = eas.TargetX := rfl

/-- `UpdateAnimation` field lemma: new Y display position. -/
lemma UA_DisplayY (eas : EAS) : (UpdateAnimation eas).DisplayY =
    (springUpdate eas.DisplayY eas.VelocityY eas.TargetY).1 := rfl

/-- `UpdateAnimation` field lemma: new Y spring velocity. -/
lemma UA_VelocityY (eas : EAS) : (UpdateAnimation eas).VelocityY =
    (springUpdate eas.DisplayY eas.VelocityY eas.TargetY).2 := rfl

/-- `UpdateAnimation` preserves the Y target. -/
lemma UA_TargetY (eas : EAS) : (UpdateAnimation eas).TargetY = eas.TargetY := rfl

/-- Closed form of `n` animation steps: targets are preserved and the
two invariant combinations decay geometrically with ratios 3/4 and 2/3
on each axis. -/
lemma UA_iter (n : ℕ) (eas : EAS) :
    (UpdateAnimation^[n] eas).TargetX = eas.TargetX ∧
    (UpdateAnimation^[n] eas).TargetY = eas.TargetY ∧
    30 * ((UpdateAnimation^[n] eas).DisplayX - eas.TargetX) +
        (UpdateAnimation^[n] eas).VelocityX =
      (3 / 4) ^ n * (30 * (eas.DisplayX - eas.TargetX) + eas.VelocityX) ∧
    20 * ((UpdateAnimation^[n] eas).DisplayX - eas.TargetX) +
        (UpdateAnimation^[n] eas).VelocityX =
      (2 / 3) ^ n * (20 * (eas.DisplayX - eas.TargetX) + eas.VelocityX) ∧
    30 * ((UpdateAnimation^[n] eas).DisplayY - eas.TargetY) +
        (UpdateAnimation^[n] eas).VelocityY =
      (3 / 4) ^ n * (30 * (eas.DisplayY - eas.TargetY) + eas.VelocityY) ∧
    20 * ((UpdateAnimation^[n] eas).DisplayY - eas.TargetY) +
        (UpdateAnimation^[n] eas).VelocityY =
      (2 / 3) ^ n * (20 * (eas.DisplayY - eas.TargetY) + eas.VelocityY) := by
  induction n with
  | zero =>
      refine ⟨rfl, rfl, by norm_num, by norm_num, by norm_num, by norm_num⟩
  | succ n ih =>
      obtain ⟨ht1, ht2, hPx, hQx, hPy, hQy⟩ := ih
      rw [Function.iterate_succ_apply']
      refine ⟨by rw [UA_TargetX]; exact ht1, by rw [UA_TargetY]; exact ht2,
        ?_, ?_, ?_, ?_⟩
      · rw [UA_DisplayX, UA_VelocityX, ht1, springUpdate_P, hPx]
        ring
      · rw [UA_DisplayX, UA_VelocityX, ht1, springUpdate_Q, hQx]
        ring
      · rw [UA_DisplayY, UA_VelocityY, ht2, springUpdate_P, hPy]
        ring
      · rw [UA_DisplayY, UA_VelocityY, ht2, springUpdate_Q, hQy]
        ring

/-- Numeric decay of one axis after 120 steps: from the two invariant
combinations and start bounds of 10⁶, both the error and the spring
velocity end strictly below the 0.01 convergence thresholds. -/
lemma axis_conv (e0 v0 en vn : ℚ)
    (hP : 30 * en + vn = (3 / 4) ^ 120 * (30 * e0 + v0))
    (hQ : 20 * en + vn = (2 / 3) ^ 120 * (20 * e0 + v0))
    (he0 : |e0| ≤ 1000000) (hv0 : |v0| ≤ 1000000) :
    |en| < 0.01 ∧ |vn| < 0.01 := by
  have hP0 : |30 * e0 + v0| ≤ 31000000 := by
    calc |30 * e0 + v0| ≤ |30 * e0| + |v0| := abs_add _ _
    _ = 30 * |e0| + |v0| := by
        rw [abs_mul, show |(30 : ℚ)| = 30 from abs_of_nonneg (by norm_num)]
    _ ≤ 31000000 := by linarith
  have hQ0 : |20 * e0 + v0| ≤ 21000000 := by
    calc |20 * e0 + v0| ≤ |20 * e0| + |v0| := abs_add _ _
    _ = 20 * |e0| + |v0| := by
        rw [abs_mul, show |(20 : ℚ)| = 20 from abs_of_nonneg (by norm_num)]
    _ ≤ 21000000 := by linarith
  have hpow : ((2 : ℚ) / 3) ^ 120 ≤ ((3 : ℚ) / 4) ^ 120 :=
    pow_le_pow_left (by norm_num) (by norm_num) 120
  have hXnn : (0 : ℚ) ≤ (3 / 4) ^ 120 := by positivity
  have habsP : |30 * en + vn| ≤ (3 / 4) ^ 120 * 31000000 := by
    rw [hP, abs_mul, abs_pow,
      show |(3 : ℚ) / 4| = 3 / 4 from abs_of_nonneg (by norm_num)]
    exact mul_le_mul_of_nonneg_left hP0 hXnn
  have habsQ : |20 * en + vn| ≤ (3 / 4) ^ 120 * 21000000 := by
    rw [hQ, abs_mul, abs_pow,
      show |(2 : ℚ) / 3| = 2 / 3 from abs_of_nonneg (by norm_num)]
    calc (2 / 3) ^ 120 * |20 * e0 + v0| ≤ (2 / 3) ^ 120 * 21000000 :=
        mul_le_mul_of_nonneg_left hQ0 (by positivity)
    _ ≤ (3 / 4) ^ 120 * 21000000 := by
        exact mul_le_mul_of_nonneg_right hpow (by norm_num)
  have hnum : ((3 : ℚ) / 4) ^ 120 * 125000000 < 1 / 100 := by norm_num
  constructor
  · have h10 : |10 * en| ≤ |30 * en + vn| + |20 * en + vn| := by
      have hPQ : (30 * en + vn) - (20 * en + vn) = 10 * en := by ring
      calc |10 * en| = |(30 * en + vn) - (20 * en + vn)| := by rw [hPQ]
      _ = |(30 * en + vn) + -(20 * en + vn)| := by rw [sub_eq_add_neg]
      _ ≤ |30 * en + vn| + |-(20 * en + vn)| := abs_add _ _
      _ = |30 * en + vn| + |20 * en + vn| := by rw [abs_neg]
    rw [abs_mul, show |(10 : ℚ)| = 10 from abs_of_nonneg (by norm_num)] at h10
    linarith
  · have hvn : |vn| ≤ 3 * |20 * en + vn| + 2 * |30 * en + vn| := by
      have hved : vn = 3 * (20 * en + vn) + -(2 * (30 * en + vn)) := by ring
      calc |vn| = |3 * (20 * en + vn) + -(2 * (30 * en + vn))| := by rw [← hved]
      _ ≤ |3 * (20 * en + vn)| + |-(2 * (30 * en + vn))| := abs_add _ _
      _ = 3 * |20 * en + vn| + 2 * |30 * en + vn| := by
          rw [abs_neg, abs_mul, abs_mul,
            show |(3 : ℚ)| = 3 from abs_of_nonneg (by norm_num),
            show |(2 : ℚ)| = 2 from abs_of_nonneg (by norm_num)]
    linarith

/-- When the just-computed state satisfies the four convergence
thresholds, `UpdateAnimation` stores `IsAnimating = false`. -/
lemma UA_sets_false (s : EAS)
    (h1 : |(UpdateAnimation s).DisplayX - (UpdateAnimation s).TargetX| < 0.01)
    (h2 : |(UpdateAnimation s).DisplayY - (UpdateAnimation s).TargetY| < 0.01)
    (h3 : |(UpdateAnimation s).VelocityX| < 0.01)
    (h4 : |(UpdateAnimation s).VelocityY| < 0.01) :
    (UpdateAnimation s).IsAnimating = false := by
  simp only [UpdateAnimation] at h1 h2 h3 h4 ⊢
  rw [if_pos]
  simp only [Bool.and_eq_true, decide_eq_true_eq]
  exact ⟨⟨⟨h1, h2⟩, h3⟩, h4⟩

/-- C7: (spec-modelled spring) from any state whose error and spring
velocity are at most 10⁶ on each axis, 120 animation steps (well under
1000) reach `IsAnimating = false` with the display within 0.02 of the
target on both axes; and `UpdateAnimation` declares convergence exactly
when both axes are within 0.01 of target and both spring velocities are
below 0.01 (otherwise `IsAnimating` is left as it was). -/
theorem C7_theorem :
    (∀ eas : EAS,
      |eas.DisplayX - eas.TargetX| ≤ 1000000 → |eas.VelocityX| ≤ 1000000 →
      |eas.DisplayY - eas.TargetY| ≤ 1000000 → |eas.VelocityY| ≤ 1000000 →
      (UpdateAnimation^[120] eas).IsAnimating = false ∧
      |(UpdateAnimation^[120] eas).DisplayX - (UpdateAnimation^[120] eas).TargetX| ≤ 0.02 ∧
      |(UpdateAnimation^[120] eas).DisplayY - (UpdateAnimation^[120] eas).TargetY| ≤ 0.02) ∧
    (∀ eas : EAS,
      (UpdateAnimation eas).IsAnimating = false ↔
        ((|(UpdateAnimation eas).DisplayX - (UpdateAnimation eas).TargetX| < 0.01 ∧
          |(UpdateAnimation eas).DisplayY - (UpdateAnimation eas).TargetY| < 0.01 ∧
          |(UpdateAnimation eas).VelocityX| < 0.01 ∧
          |(UpdateAnimation eas).VelocityY| < 0.01) ∨
          eas.IsAnimating = false)) := by
  constructor
  · intro eas h1 h2 h3 h4
    obtain ⟨ht1, ht2, hPx, hQx, hPy, hQy⟩ := UA_iter 120 eas
    have hax := axis_conv _ _ _ _ hPx hQx h1 h2
    have hay := axis_conv _ _ _ _ hPy hQy h3 h4
    have h120 : UpdateAnimation^[120] eas =
        UpdateAnimation (UpdateAnimation^[119] eas) :=
      Function.iterate_succ_apply' UpdateAnimation 119 eas
    refine ⟨?_, ?_, ?_⟩
    · rw [h120]
      apply UA_sets_false
      · rw [← h120, ht1]; exact hax.1
      · rw [← h120, ht2]; exact hay.1
      · rw [← h120]; exact hax.2
      · rw [← h120]; exact hay.2
    · rw [ht1]
      linarith [hax.1, abs_nonneg ((UpdateAnimation^[120] eas).DisplayX - eas.TargetX)]
    · rw [ht2]
      linarith [hay.1, abs_nonneg ((UpdateAnimation^[120] eas).DisplayY - eas.TargetY)]
  · intro eas
    simp only [UpdateAnimation]
    split_ifs with hc
    · simp only [Bool.and_eq_true, decide_eq_true_eq] at hc
      constructor
      · intro _
        exact Or.inl ⟨hc.1.1.1, hc.1.1.2, hc.1.2, hc.2⟩
      · intro _
        rfl
    · constructor
      · intro hfalse
        exact Or.inr hfalse
      · rintro (hp | hp)
        · exact absurd (by
            simp only [Bool.and_eq_true, decide_eq_true_eq]
            exact ⟨⟨⟨hp.1, hp.2.1⟩, hp.2.2.1⟩, hp.2.2.2⟩) hc
        · exact hp

/-- C7 witness: an animation from display (0,0) toward target (5,5). -/
theorem C7_theorem_witness :
    (UpdateAnimation^[120]
        { DisplayX := 0, DisplayY := 0, TargetX := 5, TargetY := 5,
          VelocityX := 0, VelocityY := 0, IsAnimating := true }).IsAnimating = false ∧
    |(UpdateAnimation^[120]
        { DisplayX := 0, DisplayY := 0, TargetX := 5, TargetY := 5,
          VelocityX := 0, VelocityY := 0, IsAnimating := true }).DisplayX -
      (UpdateAnimation^[120]
        { DisplayX := 0, DisplayY := 0, TargetX := 5, TargetY := 5,
          VelocityX := 0, VelocityY := 0, IsAnimating := true }).TargetX| ≤ 0.02 ∧
    |(UpdateAnimation^[120]
        { DisplayX := 0, DisplayY := 0, TargetX := 5, TargetY := 5,
          VelocityX := 0, VelocityY := 0, IsAnimating := true }).DisplayY -
      (UpdateAnimation^[120]
        { DisplayX := 0, DisplayY := 0, TargetX := 5, TargetY := 5,
          VelocityX := 0, VelocityY := 0, IsAnimating := true }).TargetY| ≤ 0.02 :=
  C7_theorem.1
    { DisplayX := 0, DisplayY := 0, TargetX := 5, TargetY := 5,
      VelocityX := 0, VelocityY := 0, IsAnimating := true }
    (by norm_num) (by norm_num) (by norm_num) (by norm_num)

/-! ### Claim C8: registry invariants -/

/-- `RemoveEntity` removes exactly the first entity with the given ID
(`List.eraseP` on the ID test). -/
lemma RemoveEntity_eraseP (l : List REnt) (i : String) :
    (RemoveEntity l i).1 = List.eraseP (fun e => decide (e.id = i)) l := by
  induction l with
  | nil => rfl
  | cons e rest ih =>
      by_cases h : e.id = i
      · simp [RemoveEntity, h, List.eraseP_cons]
      · simp [RemoveEntity, h, List.eraseP_cons, ih]

/-- `RemoveEntity` reports success iff an entity with the ID is present. -/
lemma RemoveEntity_found_iff (l : List REnt) (i : String) :
    (RemoveEntity l i).2 = true ↔ ∃ e ∈ l, e.id = i := by
  induction l with
  | nil => simp [RemoveEntity]
  | cons e rest ih =>
      by_cases h : e.id = i
      · simp [RemoveEntity, h]
      · simp [RemoveEntity, h, ih]

/-- On a miss, `RemoveEntity` is a no-op. -/
lemma RemoveEntity_miss (l : List REnt) (i : String) :
    (RemoveEntity l i).2 = false → (RemoveEntity l i).1 = l := by
  induction l with
  | nil => intro; rfl
  | cons e rest ih =>
      by_cases h : e.id = i
      · simp [RemoveEntity, h]
      · simp [RemoveEntity, h]
        exact ih

/-- A successful removal shortens the registry by exactly one. -/
lemma RemoveEntity_length (l : List REnt) (i : String) :
    (RemoveEntity l i).2 = true → (RemoveEntity l i).1.length + 1 = l.length := by
  induction l with
  | nil => simp [RemoveEntity]
  | cons e rest ih =>
      by_cases h : e.id = i
      · simp [RemoveEntity, h]
      · simp only [RemoveEntity, h, if_false, ite_false, List.length_cons]
        intro hfound
        have := ih hfound
        omega

/-- Registry size accounting for any workload run from any start state:
final count plus successful removes equals start count plus adds. -/
lemma runRegOps_count (ops : List RegOp) :
    ∀ l : List REnt,
      Count (runRegOps ops l).1 + (runRegOps ops l).2.2 =
        Count l + (runRegOps ops l).2.1 := by
  induction ops with
  | nil => intro l; simp [runRegOps, Count]
  | cons op rest ih =>
      intro l
      cases op with
      | add e =>
          have hrec := ih (AddEntity l e)
          show Count (runRegOps rest (AddEntity l e)).1 +
              (runRegOps rest (AddEntity l e)).2.2 =
            Count l + ((runRegOps rest (AddEntity l e)).2.1 + 1)
          simp only [Count, AddEntity, List.length_append, List.length_cons,
            List.length_nil] at hrec ⊢
          omega
      | remove i =>
          have hrec := ih (RemoveEntity l i).1
          show Count (runRegOps rest (RemoveEntity l i).1).1 +
              ((runRegOps rest (RemoveEntity l i).1).2.2 +
                (if (RemoveEntity l i).2 then 1 else 0)) =
            Count l + (runRegOps rest (RemoveEntity l i).1).2.1
          by_cases hb : (RemoveEntity l i).2 = true
          · have hlen := RemoveEntity_length l i hb
            rw [if_pos hb]
            simp only [Count] at hrec ⊢
            omega
          · have hb' : (RemoveEntity l i).2 = false := by
              simpa using hb
            have hmiss := RemoveEntity_miss l i hb'
            rw [if_neg hb, hmiss]
            rw [hmiss] at hrec
            simp only [Count] at hrec ⊢
            omega

/-- C8: `RemoveEntity` returns true iff the ID was present, removing the
first matching entity and otherwise being a no-op; after any workload of
adds and removes run from an empty registry, `Count` equals the number
of adds minus the number of successful removes; and when every entity
is of type "sphere" or "sprite" (as the factories guarantee),
`CountByType` summed over both types equals `Count`. -/
theorem C8_theorem :
    (∀ (l : List REnt) (i : String),
      (RemoveEntity l i).2 = true ↔ ∃ e ∈ l, e.id = i) ∧
    (∀ (l : List REnt) (i : String),
      (RemoveEntity l i).1 = List.eraseP (fun e => decide (e.id = i)) l) ∧
    (∀ (l : List REnt) (i : String),
      (RemoveEntity l i).2 = false → (RemoveEntity l i).1 = l) ∧
    (∀ ops : List RegOp,
      (runRegOps ops []).2.2 ≤ (runRegOps ops []).2.1 ∧
      Count (runRegOps ops []).1 =
        (runRegOps ops []).2.1 - (runRegOps ops []).2.2) ∧
    (∀ l : List REnt, (∀ e ∈ l, e.ty = "sphere" ∨ e.ty = "sprite") →
      CountByType l "sphere" + CountByType l "sprite" = Count l) := by
  refine ⟨RemoveEntity_found_iff, RemoveEntity_eraseP, RemoveEntity_miss, ?_, ?_⟩
  · intro ops
    have hc := runRegOps_count ops []
    simp only [Count, List.length_nil] at hc ⊢
    omega
  · intro l
    induction l with
    | nil => intro; rfl
    | cons e rest ih =>
        intro hall
        have he := hall e (by simp)
        have hrest := ih (fun e' he' => hall e' (by simp [he']))
        rcases he with he | he
        · simp [CountByType, Count, List.filter_cons, he] at hrest ⊢
          omega
        · simp [CountByType, Count, List.filter_cons, he] at hrest ⊢
          omega

/-- C8 witness: a two-entity registry (one sphere, one sprite) — the
type counts sum to the total, and removing a present ID succeeds. -/
theorem C8_theorem_witness :
    CountByType [⟨"a", "sphere"⟩, ⟨"b", "sprite"⟩] "sphere" +
      CountByType [⟨"a", "sphere"⟩, ⟨"b", "sprite"⟩] "sprite" =
      Count [⟨"a", "sphere"⟩, ⟨"b", "sprite"⟩] :=
  C8_theorem.2.2.2.2 [⟨"a", "sphere"⟩, ⟨"b", "sprite"⟩]
    (by simp)
